import Mathlib

/-!
Verification of the Nuclei PoC screening and deduplication tool
(src/Nuclei-PoC_Deduplication.py) against its specification.

File text is modelled as `List Char`. The Python string and regex
operations the program uses are translated directly: `str.splitlines`,
`str.strip`, `str.lower`, substring containment, the three regex
searches, MD5 hashing (RFC 1321) of the UTF-8 encoding, and the
statistics-draining loop of `main`.
-/

namespace NucleiPoC

/-- Python whitespace: the characters matched by the regex class \s on
str input and stripped by str.strip (ASCII whitespace controls, space,
and the Unicode whitespace code points). -/
def pyIsSpace (c : Char) : Bool :=
  (9 ≤ c.toNat && c.toNat ≤ 13) || c.toNat = 32 || (28 ≤ c.toNat && c.toNat ≤ 31) ||
  c.toNat = 133 || c.toNat = 160 || c.toNat = 5760 ||
  (8192 ≤ c.toNat && c.toNat ≤ 8202) || c.toNat = 8232 || c.toNat = 8233 ||
  c.toNat = 8239 || c.toNat = 8287 || c.toNat = 12288

/-- Characters treated as line boundaries by Python str.splitlines. -/
def isLineBreak (c : Char) : Bool :=
  c.toNat = 10 || c.toNat = 11 || c.toNat = 12 || c.toNat = 13 ||
  c.toNat = 28 || c.toNat = 29 || c.toNat = 30 ||
  c.toNat = 133 || c.toNat = 8232 || c.toNat = 8233

/-- Segments of a text between line boundaries (n boundaries give n+1
segments); a carriage return followed by a newline counts as a single
boundary, as in str.splitlines. -/
def splitSegsAux : Bool → List Char → List (List Char)
  | _, [] => [[]]
  | afterCR, c :: cs =>
    if afterCR && c = '\n' then splitSegsAux false cs
    else if c = '\r' then [] :: splitSegsAux true cs
    else if isLineBreak c then [] :: splitSegsAux false cs
    else
      match splitSegsAux false cs with
      | [] => [[c]]
      | l :: ls => (c :: l) :: ls

def splitSegs (s : List Char) : List (List Char) :=
  splitSegsAux false s

/-- Python str.splitlines: the boundary-separated segments, except that
the trailing empty segment left by a terminal line boundary (or by
empty input) is not reported. -/
def splitlines (s : List Char) : List (List Char) :=
  match (splitSegs s).getLast? with
  | some [] => (splitSegs s).dropLast
  | _ => splitSegs s

/-- Python str.strip with no argument: remove leading and trailing
whitespace. -/
def pyStrip (l : List Char) : List Char :=
  ((l.dropWhile pyIsSpace).reverse.dropWhile pyIsSpace).reverse

/-- The comment-line test of process_file line 51:
line.strip().startswith applied with the one-character pattern. -/
def isCommentLine (l : List Char) : Bool :=
  decide ((pyStrip l).take 1 = ['#'])

/-- re.sub with the pattern of one-or-more whitespace and empty
replacement (process_file line 52): delete every whitespace character. -/
def removeWS (l : List Char) : List Char :=
  l.filter (fun c => !pyIsSpace c)

/-- Python str.join with a newline separator. -/
def joinNL : List (List Char) → List Char
  | [] => []
  | [l] => l
  | l :: ls => l ++ '\n' :: joinNL ls

/-- Lines 51-52 of process_file: drop the comment lines of the signature
block, join the rest with newlines, and delete all whitespace. -/
def normalizeSignature (b : List Char) : List Char :=
  removeWS (joinNL ((splitlines b).filter (fun l => !isCommentLine l)))

def reqLit : List Char := "requests:".toList

def httpLit : List Char := "http:".toList

/-- Whether the request-marker pattern, alternation of the two literals,
matches at the start of s. -/
def sigAt (s : List Char) : Bool :=
  reqLit.isPrefixOf s || httpLit.isPrefixOf s

/-- re.search (process_file line 48) of the anchored request-marker
pattern in MULTILINE mode: positions are scanned left to right and the
anchor succeeds at the string start and right after each newline; the
result is the text from the match start onward (line 50). -/
def findSigAux : Bool → List Char → Option (List Char)
  | _, [] => none
  | atStart, c :: cs =>
    if atStart && sigAt (c :: cs) then some (c :: cs)
    else findSigAux (decide (c = '\n')) cs

def findSig (s : List Char) : Option (List Char) :=
  findSigAux true s

/-- The suffixes of s that begin at a line start, meaning position 0 or
the position right after a newline, in positional order. -/
def tailsAfterNL : List Char → List (List Char)
  | [] => []
  | c :: cs => if c = '\n' then cs :: tailsAfterNL cs else tailsAfterNL cs

def lineSuffixes (s : List Char) : List (List Char) :=
  s :: tailsAfterNL s

def sevLit : List Char := "severity:".toList

def wordRanges1 : List (Nat × Nat) :=
  [(48, 57), (65, 90), (95, 95), (97, 122), (170, 170), (178, 179),
   (181, 181), (185, 186), (188, 190), (192, 214), (216, 246), (248, 705),
   (710, 721), (736, 740), (748, 748), (750, 750), (880, 884), (886, 887),
   (890, 893), (895, 895), (902, 902), (904, 906), (908, 908), (910, 929),
   (931, 1013), (1015, 1153), (1162, 1327), (1329, 1366), (1369, 1369), (1376, 1416),
   (1488, 1514), (1519, 1522), (1568, 1610), (1632, 1641), (1646, 1647), (1649, 1747),
   (1749, 1749), (1765, 1766), (1774, 1788), (1791, 1791), (1808, 1808), (1810, 1839),
   (1869, 1957), (1969, 1969), (1984, 2026), (2036, 2037), (2042, 2042), (2048, 2069),
   (2074, 2074), (2084, 2084), (2088, 2088), (2112, 2136), (2144, 2154), (2160, 2183),
   (2185, 2190), (2208, 2249), (2308, 2361), (2365, 2365), (2384, 2384), (2392, 2401),
   (2406, 2415), (2417, 2432), (2437, 2444), (2447, 2448), (2451, 2472), (2474, 2480),
   (2482, 2482), (2486, 2489), (2493, 2493), (2510, 2510), (2524, 2525), (2527, 2529),
   (2534, 2545), (2548, 2553), (2556, 2556), (2565, 2570), (2575, 2576), (2579, 2600),
   (2602, 2608), (2610, 2611), (2613, 2614), (2616, 2617), (2649, 2652), (2654, 2654),
   (2662, 2671), (2674, 2676), (2693, 2701), (2703, 2705), (2707, 2728), (2730, 2736),
   (2738, 2739), (2741, 2745), (2749, 2749), (2768, 2768), (2784, 2785), (2790, 2799),
   (2809, 2809), (2821, 2828), (2831, 2832), (2835, 2856), (2858, 2864), (2866, 2867),
   (2869, 2873), (2877, 2877), (2908, 2909), (2911, 2913), (2918, 2927), (2929, 2935),
   (2947, 2947), (2949, 2954), (2958, 2960), (2962, 2965), (2969, 2970), (2972, 2972),
   (2974, 2975), (2979, 2980), (2984, 2986), (2990, 3001), (3024, 3024), (3046, 3058),
   (3077, 3084), (3086, 3088), (3090, 3112), (3114, 3129), (3133, 3133), (3160, 3162),
   (3165, 3165), (3168, 3169), (3174, 3183), (3192, 3198), (3200, 3200), (3205, 3212),
   (3214, 3216), (3218, 3240), (3242, 3251), (3253, 3257), (3261, 3261), (3293, 3294),
   (3296, 3297), (3302, 3311), (3313, 3314), (3332, 3340), (3342, 3344), (3346, 3386),
   (3389, 3389), (3406, 3406), (3412, 3414), (3416, 3425), (3430, 3448), (3450, 3455)]

def wordRanges2 : List (Nat × Nat) :=
  [(3461, 3478), (3482, 3505), (3507, 3515), (3517, 3517), (3520, 3526), (3558, 3567),
   (3585, 3632), (3634, 3635), (3648, 3654), (3664, 3673), (3713, 3714), (3716, 3716),
   (3718, 3722), (3724, 3747), (3749, 3749), (3751, 3760), (3762, 3763), (3773, 3773),
   (3776, 3780), (3782, 3782), (3792, 3801), (3804, 3807), (3840, 3840), (3872, 3891),
   (3904, 3911), (3913, 3948), (3976, 3980), (4096, 4138), (4159, 4169), (4176, 4181),
   (4186, 4189), (4193, 4193), (4197, 4198), (4206, 4208), (4213, 4225), (4238, 4238),
   (4240, 4249), (4256, 4293), (4295, 4295), (4301, 4301), (4304, 4346), (4348, 4680),
   (4682, 4685), (4688, 4694), (4696, 4696), (4698, 4701), (4704, 4744), (4746, 4749),
   (4752, 4784), (4786, 4789), (4792, 4798), (4800, 4800), (4802, 4805), (4808, 4822),
   (4824, 4880), (4882, 4885), (4888, 4954), (4969, 4988), (4992, 5007), (5024, 5109),
   (5112, 5117), (5121, 5740), (5743, 5759), (5761, 5786), (5792, 5866), (5870, 5880),
   (5888, 5905), (5919, 5937), (5952, 5969), (5984, 5996), (5998, 6000), (6016, 6067),
   (6103, 6103), (6108, 6108), (6112, 6121), (6128, 6137), (6160, 6169), (6176, 6264),
   (6272, 6276), (6279, 6312), (6314, 6314), (6320, 6389), (6400, 6430), (6470, 6509),
   (6512, 6516), (6528, 6571), (6576, 6601), (6608, 6618), (6656, 6678), (6688, 6740),
   (6784, 6793), (6800, 6809), (6823, 6823), (6917, 6963), (6981, 6988), (6992, 7001),
   (7043, 7072), (7086, 7141), (7168, 7203), (7232, 7241), (7245, 7293), (7296, 7304),
   (7312, 7354), (7357, 7359), (7401, 7404), (7406, 7411), (7413, 7414), (7418, 7418),
   (7424, 7615), (7680, 7957), (7960, 7965), (7968, 8005), (8008, 8013), (8016, 8023),
   (8025, 8025), (8027, 8027), (8029, 8029), (8031, 8061), (8064, 8116), (8118, 8124),
   (8126, 8126), (8130, 8132), (8134, 8140), (8144, 8147), (8150, 8155), (8160, 8172),
   (8178, 8180), (8182, 8188), (8304, 8305), (8308, 8313), (8319, 8329), (8336, 8348),
   (8450, 8450), (8455, 8455), (8458, 8467), (8469, 8469), (8473, 8477), (8484, 8484),
   (8486, 8486), (8488, 8488), (8490, 8493), (8495, 8505), (8508, 8511), (8517, 8521),
   (8526, 8526), (8528, 8585), (9312, 9371), (9450, 9471), (10102, 10131), (11264, 11492)]

def wordRanges3 : List (Nat × Nat) :=
  [(11499, 11502), (11506, 11507), (11517, 11517), (11520, 11557), (11559, 11559), (11565, 11565),
   (11568, 11623), (11631, 11631), (11648, 11670), (11680, 11686), (11688, 11694), (11696, 11702),
   (11704, 11710), (11712, 11718), (11720, 11726), (11728, 11734), (11736, 11742), (11823, 11823),
   (12293, 12295), (12321, 12329), (12337, 12341), (12344, 12348), (12353, 12438), (12445, 12447),
   (12449, 12538), (12540, 12543), (12549, 12591), (12593, 12686), (12690, 12693), (12704, 12735),
   (12784, 12799), (12832, 12841), (12872, 12879), (12881, 12895), (12928, 12937), (12977, 12991),
   (13312, 19903), (19968, 42124), (42192, 42237), (42240, 42508), (42512, 42539), (42560, 42606),
   (42623, 42653), (42656, 42735), (42775, 42783), (42786, 42888), (42891, 42954), (42960, 42961),
   (42963, 42963), (42965, 42969), (42994, 43009), (43011, 43013), (43015, 43018), (43020, 43042),
   (43056, 43061), (43072, 43123), (43138, 43187), (43216, 43225), (43250, 43255), (43259, 43259),
   (43261, 43262), (43264, 43301), (43312, 43334), (43360, 43388), (43396, 43442), (43471, 43481),
   (43488, 43492), (43494, 43518), (43520, 43560), (43584, 43586), (43588, 43595), (43600, 43609),
   (43616, 43638), (43642, 43642), (43646, 43695), (43697, 43697), (43701, 43702), (43705, 43709),
   (43712, 43712), (43714, 43714), (43739, 43741), (43744, 43754), (43762, 43764), (43777, 43782),
   (43785, 43790), (43793, 43798), (43808, 43814), (43816, 43822), (43824, 43866), (43868, 43881),
   (43888, 44002), (44016, 44025), (44032, 55203), (55216, 55238), (55243, 55291), (63744, 64109),
   (64112, 64217), (64256, 64262), (64275, 64279), (64285, 64285), (64287, 64296), (64298, 64310),
   (64312, 64316), (64318, 64318), (64320, 64321), (64323, 64324), (64326, 64433), (64467, 64829),
   (64848, 64911), (64914, 64967), (65008, 65019), (65136, 65140), (65142, 65276), (65296, 65305),
   (65313, 65338), (65345, 65370), (65382, 65470), (65474, 65479), (65482, 65487), (65490, 65495),
   (65498, 65500), (65536, 65547), (65549, 65574), (65576, 65594), (65596, 65597), (65599, 65613),
   (65616, 65629), (65664, 65786), (65799, 65843), (65856, 65912), (65930, 65931), (66176, 66204),
   (66208, 66256), (66273, 66299), (66304, 66339), (66349, 66378), (66384, 66421), (66432, 66461),
   (66464, 66499), (66504, 66511), (66513, 66517), (66560, 66717), (66720, 66729), (66736, 66771),
   (66776, 66811), (66816, 66855), (66864, 66915), (66928, 66938), (66940, 66954), (66956, 66962)]

def wordRanges4 : List (Nat × Nat) :=
  [(66964, 66965), (66967, 66977), (66979, 66993), (66995, 67001), (67003, 67004), (67072, 67382),
   (67392, 67413), (67424, 67431), (67456, 67461), (67463, 67504), (67506, 67514), (67584, 67589),
   (67592, 67592), (67594, 67637), (67639, 67640), (67644, 67644), (67647, 67669), (67672, 67702),
   (67705, 67742), (67751, 67759), (67808, 67826), (67828, 67829), (67835, 67867), (67872, 67897),
   (67968, 68023), (68028, 68047), (68050, 68096), (68112, 68115), (68117, 68119), (68121, 68149),
   (68160, 68168), (68192, 68222), (68224, 68255), (68288, 68295), (68297, 68324), (68331, 68335),
   (68352, 68405), (68416, 68437), (68440, 68466), (68472, 68497), (68521, 68527), (68608, 68680),
   (68736, 68786), (68800, 68850), (68858, 68899), (68912, 68921), (69216, 69246), (69248, 69289),
   (69296, 69297), (69376, 69415), (69424, 69445), (69457, 69460), (69488, 69505), (69552, 69579),
   (69600, 69622), (69635, 69687), (69714, 69743), (69745, 69746), (69749, 69749), (69763, 69807),
   (69840, 69864), (69872, 69881), (69891, 69926), (69942, 69951), (69956, 69956), (69959, 69959),
   (69968, 70002), (70006, 70006), (70019, 70066), (70081, 70084), (70096, 70106), (70108, 70108),
   (70113, 70132), (70144, 70161), (70163, 70187), (70272, 70278), (70280, 70280), (70282, 70285),
   (70287, 70301), (70303, 70312), (70320, 70366), (70384, 70393), (70405, 70412), (70415, 70416),
   (70419, 70440), (70442, 70448), (70450, 70451), (70453, 70457), (70461, 70461), (70480, 70480),
   (70493, 70497), (70656, 70708), (70727, 70730), (70736, 70745), (70751, 70753), (70784, 70831),
   (70852, 70853), (70855, 70855), (70864, 70873), (71040, 71086), (71128, 71131), (71168, 71215),
   (71236, 71236), (71248, 71257), (71296, 71338), (71352, 71352), (71360, 71369), (71424, 71450),
   (71472, 71483), (71488, 71494), (71680, 71723), (71840, 71922), (71935, 71942), (71945, 71945),
   (71948, 71955), (71957, 71958), (71960, 71983), (71999, 71999), (72001, 72001), (72016, 72025),
   (72096, 72103), (72106, 72144), (72161, 72161), (72163, 72163), (72192, 72192), (72203, 72242),
   (72250, 72250), (72272, 72272), (72284, 72329), (72349, 72349), (72368, 72440), (72704, 72712),
   (72714, 72750), (72768, 72768), (72784, 72812), (72818, 72847), (72960, 72966), (72968, 72969),
   (72971, 73008), (73030, 73030), (73040, 73049), (73056, 73061), (73063, 73064), (73066, 73097),
   (73112, 73112), (73120, 73129), (73440, 73458), (73648, 73648), (73664, 73684), (73728, 74649)]

def wordRanges5 : List (Nat × Nat) :=
  [(74752, 74862), (74880, 75075), (77712, 77808), (77824, 78894), (82944, 83526), (92160, 92728),
   (92736, 92766), (92768, 92777), (92784, 92862), (92864, 92873), (92880, 92909), (92928, 92975),
   (92992, 92995), (93008, 93017), (93019, 93025), (93027, 93047), (93053, 93071), (93760, 93846),
   (93952, 94026), (94032, 94032), (94099, 94111), (94176, 94177), (94179, 94179), (94208, 100343),
   (100352, 101589), (101632, 101640), (110576, 110579), (110581, 110587), (110589, 110590), (110592, 110882),
   (110928, 110930), (110948, 110951), (110960, 111355), (113664, 113770), (113776, 113788), (113792, 113800),
   (113808, 113817), (119520, 119539), (119648, 119672), (119808, 119892), (119894, 119964), (119966, 119967),
   (119970, 119970), (119973, 119974), (119977, 119980), (119982, 119993), (119995, 119995), (119997, 120003),
   (120005, 120069), (120071, 120074), (120077, 120084), (120086, 120092), (120094, 120121), (120123, 120126),
   (120128, 120132), (120134, 120134), (120138, 120144), (120146, 120485), (120488, 120512), (120514, 120538),
   (120540, 120570), (120572, 120596), (120598, 120628), (120630, 120654), (120656, 120686), (120688, 120712),
   (120714, 120744), (120746, 120770), (120772, 120779), (120782, 120831), (122624, 122654), (123136, 123180),
   (123191, 123197), (123200, 123209), (123214, 123214), (123536, 123565), (123584, 123627), (123632, 123641),
   (124896, 124902), (124904, 124907), (124909, 124910), (124912, 124926), (124928, 125124), (125127, 125135),
   (125184, 125251), (125259, 125259), (125264, 125273), (126065, 126123), (126125, 126127), (126129, 126132),
   (126209, 126253), (126255, 126269), (126464, 126467), (126469, 126495), (126497, 126498), (126500, 126500),
   (126503, 126503), (126505, 126514), (126516, 126519), (126521, 126521), (126523, 126523), (126530, 126530),
   (126535, 126535), (126537, 126537), (126539, 126539), (126541, 126543), (126545, 126546), (126548, 126548),
   (126551, 126551), (126553, 126553), (126555, 126555), (126557, 126557), (126559, 126559), (126561, 126562),
   (126564, 126564), (126567, 126570), (126572, 126578), (126580, 126583), (126585, 126588), (126590, 126590),
   (126592, 126601), (126603, 126619), (126625, 126627), (126629, 126633), (126635, 126651), (127232, 127244),
   (130032, 130041), (131072, 173791), (173824, 177976), (177984, 178205), (178208, 183969), (183984, 191456),
   (194560, 195101), (196608, 201546)]

/-- The contiguous codepoint ranges of the characters matched by the
regex class \w on str patterns (the Unicode word characters:
alphanumerics and the underscore), per the Unicode 14.0 tables of
CPython 3.11. -/
def wordRanges : List (Nat × Nat) :=
  wordRanges1 ++ wordRanges2 ++ wordRanges3 ++ wordRanges4 ++ wordRanges5

/-- The regex class \w on str patterns: Unicode word characters. -/
def isWordChar (c : Char) : Bool :=
  wordRanges.any (fun r => r.1 ≤ c.toNat && c.toNat ≤ r.2)

def lowerPairs1 : List (Nat × Nat) :=
  [(65, 97), (66, 98), (67, 99), (68, 100), (69, 101), (70, 102),
   (71, 103), (72, 104), (73, 105), (74, 106), (75, 107), (76, 108),
   (77, 109), (78, 110), (79, 111), (80, 112), (81, 113), (82, 114),
   (83, 115), (84, 116), (85, 117), (86, 118), (87, 119), (88, 120),
   (89, 121), (90, 122), (192, 224), (193, 225), (194, 226), (195, 227),
   (196, 228), (197, 229), (198, 230), (199, 231), (200, 232), (201, 233),
   (202, 234), (203, 235), (204, 236), (205, 237), (206, 238), (207, 239),
   (208, 240), (209, 241), (210, 242), (211, 243), (212, 244), (213, 245),
   (214, 246), (216, 248), (217, 249), (218, 250), (219, 251), (220, 252),
   (221, 253), (222, 254), (256, 257), (258, 259), (260, 261), (262, 263),
   (264, 265), (266, 267), (268, 269), (270, 271), (272, 273), (274, 275),
   (276, 277), (278, 279), (280, 281), (282, 283), (284, 285), (286, 287),
   (288, 289), (290, 291), (292, 293), (294, 295), (296, 297), (298, 299),
   (300, 301), (302, 303), (306, 307), (308, 309), (310, 311), (313, 314),
   (315, 316), (317, 318), (319, 320), (321, 322), (323, 324), (325, 326),
   (327, 328), (330, 331), (332, 333), (334, 335), (336, 337), (338, 339),
   (340, 341), (342, 343), (344, 345), (346, 347), (348, 349), (350, 351),
   (352, 353), (354, 355), (356, 357), (358, 359), (360, 361), (362, 363),
   (364, 365), (366, 367), (368, 369), (370, 371), (372, 373), (374, 375),
   (376, 255), (377, 378), (379, 380), (381, 382), (385, 595), (386, 387),
   (388, 389), (390, 596), (391, 392), (393, 598), (394, 599), (395, 396),
   (398, 477), (399, 601), (400, 603), (401, 402), (403, 608), (404, 611),
   (406, 617), (407, 616), (408, 409), (412, 623), (413, 626), (415, 629),
   (416, 417), (418, 419), (420, 421), (422, 640), (423, 424), (425, 643),
   (428, 429), (430, 648), (431, 432), (433, 650), (434, 651), (435, 436)]

def lowerPairs2 : List (Nat × Nat) :=
  [(437, 438), (439, 658), (440, 441), (444, 445), (452, 454), (453, 454),
   (455, 457), (456, 457), (458, 460), (459, 460), (461, 462), (463, 464),
   (465, 466), (467, 468), (469, 470), (471, 472), (473, 474), (475, 476),
   (478, 479), (480, 481), (482, 483), (484, 485), (486, 487), (488, 489),
   (490, 491), (492, 493), (494, 495), (497, 499), (498, 499), (500, 501),
   (502, 405), (503, 447), (504, 505), (506, 507), (508, 509), (510, 511),
   (512, 513), (514, 515), (516, 517), (518, 519), (520, 521), (522, 523),
   (524, 525), (526, 527), (528, 529), (530, 531), (532, 533), (534, 535),
   (536, 537), (538, 539), (540, 541), (542, 543), (544, 414), (546, 547),
   (548, 549), (550, 551), (552, 553), (554, 555), (556, 557), (558, 559),
   (560, 561), (562, 563), (570, 11365), (571, 572), (573, 410), (574, 11366),
   (577, 578), (579, 384), (580, 649), (581, 652), (582, 583), (584, 585),
   (586, 587), (588, 589), (590, 591), (880, 881), (882, 883), (886, 887),
   (895, 1011), (902, 940), (904, 941), (905, 942), (906, 943), (908, 972),
   (910, 973), (911, 974), (913, 945), (914, 946), (915, 947), (916, 948),
   (917, 949), (918, 950), (919, 951), (920, 952), (921, 953), (922, 954),
   (923, 955), (924, 956), (925, 957), (926, 958), (927, 959), (928, 960),
   (929, 961), (931, 963), (932, 964), (933, 965), (934, 966), (935, 967),
   (936, 968), (937, 969), (938, 970), (939, 971), (975, 983), (984, 985),
   (986, 987), (988, 989), (990, 991), (992, 993), (994, 995), (996, 997),
   (998, 999), (1000, 1001), (1002, 1003), (1004, 1005), (1006, 1007), (1012, 952),
   (1015, 1016), (1017, 1010), (1018, 1019), (1021, 891), (1022, 892), (1023, 893),
   (1024, 1104), (1025, 1105), (1026, 1106), (1027, 1107), (1028, 1108), (1029, 1109),
   (1030, 1110), (1031, 1111), (1032, 1112), (1033, 1113), (1034, 1114), (1035, 1115),
   (1036, 1116), (1037, 1117), (1038, 1118), (1039, 1119), (1040, 1072), (1041, 1073)]

def lowerPairs3 : List (Nat × Nat) :=
  [(1042, 1074), (1043, 1075), (1044, 1076), (1045, 1077), (1046, 1078), (1047, 1079),
   (1048, 1080), (1049, 1081), (1050, 1082), (1051, 1083), (1052, 1084), (1053, 1085),
   (1054, 1086), (1055, 1087), (1056, 1088), (1057, 1089), (1058, 1090), (1059, 1091),
   (1060, 1092), (1061, 1093), (1062, 1094), (1063, 1095), (1064, 1096), (1065, 1097),
   (1066, 1098), (1067, 1099), (1068, 1100), (1069, 1101), (1070, 1102), (1071, 1103),
   (1120, 1121), (1122, 1123), (1124, 1125), (1126, 1127), (1128, 1129), (1130, 1131),
   (1132, 1133), (1134, 1135), (1136, 1137), (1138, 1139), (1140, 1141), (1142, 1143),
   (1144, 1145), (1146, 1147), (1148, 1149), (1150, 1151), (1152, 1153), (1162, 1163),
   (1164, 1165), (1166, 1167), (1168, 1169), (1170, 1171), (1172, 1173), (1174, 1175),
   (1176, 1177), (1178, 1179), (1180, 1181), (1182, 1183), (1184, 1185), (1186, 1187),
   (1188, 1189), (1190, 1191), (1192, 1193), (1194, 1195), (1196, 1197), (1198, 1199),
   (1200, 1201), (1202, 1203), (1204, 1205), (1206, 1207), (1208, 1209), (1210, 1211),
   (1212, 1213), (1214, 1215), (1216, 1231), (1217, 1218), (1219, 1220), (1221, 1222),
   (1223, 1224), (1225, 1226), (1227, 1228), (1229, 1230), (1232, 1233), (1234, 1235),
   (1236, 1237), (1238, 1239), (1240, 1241), (1242, 1243), (1244, 1245), (1246, 1247),
   (1248, 1249), (1250, 1251), (1252, 1253), (1254, 1255), (1256, 1257), (1258, 1259),
   (1260, 1261), (1262, 1263), (1264, 1265), (1266, 1267), (1268, 1269), (1270, 1271),
   (1272, 1273), (1274, 1275), (1276, 1277), (1278, 1279), (1280, 1281), (1282, 1283),
   (1284, 1285), (1286, 1287), (1288, 1289), (1290, 1291), (1292, 1293), (1294, 1295),
   (1296, 1297), (1298, 1299), (1300, 1301), (1302, 1303), (1304, 1305), (1306, 1307),
   (1308, 1309), (1310, 1311), (1312, 1313), (1314, 1315), (1316, 1317), (1318, 1319),
   (1320, 1321), (1322, 1323), (1324, 1325), (1326, 1327), (1329, 1377), (1330, 1378),
   (1331, 1379), (1332, 1380), (1333, 1381), (1334, 1382), (1335, 1383), (1336, 1384),
   (1337, 1385), (1338, 1386), (1339, 1387), (1340, 1388), (1341, 1389), (1342, 1390),
   (1343, 1391), (1344, 1392), (1345, 1393), (1346, 1394), (1347, 1395), (1348, 1396)]

def lowerPairs4 : List (Nat × Nat) :=
  [(1349, 1397), (1350, 1398), (1351, 1399), (1352, 1400), (1353, 1401), (1354, 1402),
   (1355, 1403), (1356, 1404), (1357, 1405), (1358, 1406), (1359, 1407), (1360, 1408),
   (1361, 1409), (1362, 1410), (1363, 1411), (1364, 1412), (1365, 1413), (1366, 1414),
   (4256, 11520), (4257, 11521), (4258, 11522), (4259, 11523), (4260, 11524), (4261, 11525),
   (4262, 11526), (4263, 11527), (4264, 11528), (4265, 11529), (4266, 11530), (4267, 11531),
   (4268, 11532), (4269, 11533), (4270, 11534), (4271, 11535), (4272, 11536), (4273, 11537),
   (4274, 11538), (4275, 11539), (4276, 11540), (4277, 11541), (4278, 11542), (4279, 11543),
   (4280, 11544), (4281, 11545), (4282, 11546), (4283, 11547), (4284, 11548), (4285, 11549),
   (4286, 11550), (4287, 11551), (4288, 11552), (4289, 11553), (4290, 11554), (4291, 11555),
   (4292, 11556), (4293, 11557), (4295, 11559), (4301, 11565), (5024, 43888), (5025, 43889),
   (5026, 43890), (5027, 43891), (5028, 43892), (5029, 43893), (5030, 43894), (5031, 43895),
   (5032, 43896), (5033, 43897), (5034, 43898), (5035, 43899), (5036, 43900), (5037, 43901),
   (5038, 43902), (5039, 43903), (5040, 43904), (5041, 43905), (5042, 43906), (5043, 43907),
   (5044, 43908), (5045, 43909), (5046, 43910), (5047, 43911), (5048, 43912), (5049, 43913),
   (5050, 43914), (5051, 43915), (5052, 43916), (5053, 43917), (5054, 43918), (5055, 43919),
   (5056, 43920), (5057, 43921), (5058, 43922), (5059, 43923), (5060, 43924), (5061, 43925),
   (5062, 43926), (5063, 43927), (5064, 43928), (5065, 43929), (5066, 43930), (5067, 43931),
   (5068, 43932), (5069, 43933), (5070, 43934), (5071, 43935), (5072, 43936), (5073, 43937),
   (5074, 43938), (5075, 43939), (5076, 43940), (5077, 43941), (5078, 43942), (5079, 43943),
   (5080, 43944), (5081, 43945), (5082, 43946), (5083, 43947), (5084, 43948), (5085, 43949),
   (5086, 43950), (5087, 43951), (5088, 43952), (5089, 43953), (5090, 43954), (5091, 43955),
   (5092, 43956), (5093, 43957), (5094, 43958), (5095, 43959), (5096, 43960), (5097, 43961),
   (5098, 43962), (5099, 43963), (5100, 43964), (5101, 43965), (5102, 43966), (5103, 43967),
   (5104, 5112), (5105, 5113), (5106, 5114), (5107, 5115), (5108, 5116), (5109, 5117),
   (7312, 4304), (7313, 4305), (7314, 4306), (7315, 4307), (7316, 4308), (7317, 4309)]

def lowerPairs5 : List (Nat × Nat) :=
  [(7318, 4310), (7319, 4311), (7320, 4312), (7321, 4313), (7322, 4314), (7323, 4315),
   (7324, 4316), (7325, 4317), (7326, 4318), (7327, 4319), (7328, 4320), (7329, 4321),
   (7330, 4322), (7331, 4323), (7332, 4324), (7333, 4325), (7334, 4326), (7335, 4327),
   (7336, 4328), (7337, 4329), (7338, 4330), (7339, 4331), (7340, 4332), (7341, 4333),
   (7342, 4334), (7343, 4335), (7344, 4336), (7345, 4337), (7346, 4338), (7347, 4339),
   (7348, 4340), (7349, 4341), (7350, 4342), (7351, 4343), (7352, 4344), (7353, 4345),
   (7354, 4346), (7357, 4349), (7358, 4350), (7359, 4351), (7680, 7681), (7682, 7683),
   (7684, 7685), (7686, 7687), (7688, 7689), (7690, 7691), (7692, 7693), (7694, 7695),
   (7696, 7697), (7698, 7699), (7700, 7701), (7702, 7703), (7704, 7705), (7706, 7707),
   (7708, 7709), (7710, 7711), (7712, 7713), (7714, 7715), (7716, 7717), (7718, 7719),
   (7720, 7721), (7722, 7723), (7724, 7725), (7726, 7727), (7728, 7729), (7730, 7731),
   (7732, 7733), (7734, 7735), (7736, 7737), (7738, 7739), (7740, 7741), (7742, 7743),
   (7744, 7745), (7746, 7747), (7748, 7749), (7750, 7751), (7752, 7753), (7754, 7755),
   (7756, 7757), (7758, 7759), (7760, 7761), (7762, 7763), (7764, 7765), (7766, 7767),
   (7768, 7769), (7770, 7771), (7772, 7773), (7774, 7775), (7776, 7777), (7778, 7779),
   (7780, 7781), (7782, 7783), (7784, 7785), (7786, 7787), (7788, 7789), (7790, 7791),
   (7792, 7793), (7794, 7795), (7796, 7797), (7798, 7799), (7800, 7801), (7802, 7803),
   (7804, 7805), (7806, 7807), (7808, 7809), (7810, 7811), (7812, 7813), (7814, 7815),
   (7816, 7817), (7818, 7819), (7820, 7821), (7822, 7823), (7824, 7825), (7826, 7827),
   (7828, 7829), (7838, 223), (7840, 7841), (7842, 7843), (7844, 7845), (7846, 7847),
   (7848, 7849), (7850, 7851), (7852, 7853), (7854, 7855), (7856, 7857), (7858, 7859),
   (7860, 7861), (7862, 7863), (7864, 7865), (7866, 7867), (7868, 7869), (7870, 7871),
   (7872, 7873), (7874, 7875), (7876, 7877), (7878, 7879), (7880, 7881), (7882, 7883),
   (7884, 7885), (7886, 7887), (7888, 7889), (7890, 7891), (7892, 7893), (7894, 7895),
   (7896, 7897), (7898, 7899), (7900, 7901), (7902, 7903), (7904, 7905), (7906, 7907)]

def lowerPairs6 : List (Nat × Nat) :=
  [(7908, 7909), (7910, 7911), (7912, 7913), (7914, 7915), (7916, 7917), (7918, 7919),
   (7920, 7921), (7922, 7923), (7924, 7925), (7926, 7927), (7928, 7929), (7930, 7931),
   (7932, 7933), (7934, 7935), (7944, 7936), (7945, 7937), (7946, 7938), (7947, 7939),
   (7948, 7940), (7949, 7941), (7950, 7942), (7951, 7943), (7960, 7952), (7961, 7953),
   (7962, 7954), (7963, 7955), (7964, 7956), (7965, 7957), (7976, 7968), (7977, 7969),
   (7978, 7970), (7979, 7971), (7980, 7972), (7981, 7973), (7982, 7974), (7983, 7975),
   (7992, 7984), (7993, 7985), (7994, 7986), (7995, 7987), (7996, 7988), (7997, 7989),
   (7998, 7990), (7999, 7991), (8008, 8000), (8009, 8001), (8010, 8002), (8011, 8003),
   (8012, 8004), (8013, 8005), (8025, 8017), (8027, 8019), (8029, 8021), (8031, 8023),
   (8040, 8032), (8041, 8033), (8042, 8034), (8043, 8035), (8044, 8036), (8045, 8037),
   (8046, 8038), (8047, 8039), (8072, 8064), (8073, 8065), (8074, 8066), (8075, 8067),
   (8076, 8068), (8077, 8069), (8078, 8070), (8079, 8071), (8088, 8080), (8089, 8081),
   (8090, 8082), (8091, 8083), (8092, 8084), (8093, 8085), (8094, 8086), (8095, 8087),
   (8104, 8096), (8105, 8097), (8106, 8098), (8107, 8099), (8108, 8100), (8109, 8101),
   (8110, 8102), (8111, 8103), (8120, 8112), (8121, 8113), (8122, 8048), (8123, 8049),
   (8124, 8115), (8136, 8050), (8137, 8051), (8138, 8052), (8139, 8053), (8140, 8131),
   (8152, 8144), (8153, 8145), (8154, 8054), (8155, 8055), (8168, 8160), (8169, 8161),
   (8170, 8058), (8171, 8059), (8172, 8165), (8184, 8056), (8185, 8057), (8186, 8060),
   (8187, 8061), (8188, 8179), (8486, 969), (8490, 107), (8491, 229), (8498, 8526),
   (8544, 8560), (8545, 8561), (8546, 8562), (8547, 8563), (8548, 8564), (8549, 8565),
   (8550, 8566), (8551, 8567), (8552, 8568), (8553, 8569), (8554, 8570), (8555, 8571),
   (8556, 8572), (8557, 8573), (8558, 8574), (8559, 8575), (8579, 8580), (9398, 9424),
   (9399, 9425), (9400, 9426), (9401, 9427), (9402, 9428), (9403, 9429), (9404, 9430),
   (9405, 9431), (9406, 9432), (9407, 9433), (9408, 9434), (9409, 9435), (9410, 9436),
   (9411, 9437), (9412, 9438), (9413, 9439), (9414, 9440), (9415, 9441), (9416, 9442)]

def lowerPairs7 : List (Nat × Nat) :=
  [(9417, 9443), (9418, 9444), (9419, 9445), (9420, 9446), (9421, 9447), (9422, 9448),
   (9423, 9449), (11264, 11312), (11265, 11313), (11266, 11314), (11267, 11315), (11268, 11316),
   (11269, 11317), (11270, 11318), (11271, 11319), (11272, 11320), (11273, 11321), (11274, 11322),
   (11275, 11323), (11276, 11324), (11277, 11325), (11278, 11326), (11279, 11327), (11280, 11328),
   (11281, 11329), (11282, 11330), (11283, 11331), (11284, 11332), (11285, 11333), (11286, 11334),
   (11287, 11335), (11288, 11336), (11289, 11337), (11290, 11338), (11291, 11339), (11292, 11340),
   (11293, 11341), (11294, 11342), (11295, 11343), (11296, 11344), (11297, 11345), (11298, 11346),
   (11299, 11347), (11300, 11348), (11301, 11349), (11302, 11350), (11303, 11351), (11304, 11352),
   (11305, 11353), (11306, 11354), (11307, 11355), (11308, 11356), (11309, 11357), (11310, 11358),
   (11311, 11359), (11360, 11361), (11362, 619), (11363, 7549), (11364, 637), (11367, 11368),
   (11369, 11370), (11371, 11372), (11373, 593), (11374, 625), (11375, 592), (11376, 594),
   (11378, 11379), (11381, 11382), (11390, 575), (11391, 576), (11392, 11393), (11394, 11395),
   (11396, 11397), (11398, 11399), (11400, 11401), (11402, 11403), (11404, 11405), (11406, 11407),
   (11408, 11409), (11410, 11411), (11412, 11413), (11414, 11415), (11416, 11417), (11418, 11419),
   (11420, 11421), (11422, 11423), (11424, 11425), (11426, 11427), (11428, 11429), (11430, 11431),
   (11432, 11433), (11434, 11435), (11436, 11437), (11438, 11439), (11440, 11441), (11442, 11443),
   (11444, 11445), (11446, 11447), (11448, 11449), (11450, 11451), (11452, 11453), (11454, 11455),
   (11456, 11457), (11458, 11459), (11460, 11461), (11462, 11463), (11464, 11465), (11466, 11467),
   (11468, 11469), (11470, 11471), (11472, 11473), (11474, 11475), (11476, 11477), (11478, 11479),
   (11480, 11481), (11482, 11483), (11484, 11485), (11486, 11487), (11488, 11489), (11490, 11491),
   (11499, 11500), (11501, 11502), (11506, 11507), (42560, 42561), (42562, 42563), (42564, 42565),
   (42566, 42567), (42568, 42569), (42570, 42571), (42572, 42573), (42574, 42575), (42576, 42577),
   (42578, 42579), (42580, 42581), (42582, 42583), (42584, 42585), (42586, 42587), (42588, 42589),
   (42590, 42591), (42592, 42593), (42594, 42595), (42596, 42597), (42598, 42599), (42600, 42601),
   (42602, 42603), (42604, 42605), (42624, 42625), (42626, 42627), (42628, 42629), (42630, 42631)]

def lowerPairs8 : List (Nat × Nat) :=
  [(42632, 42633), (42634, 42635), (42636, 42637), (42638, 42639), (42640, 42641), (42642, 42643),
   (42644, 42645), (42646, 42647), (42648, 42649), (42650, 42651), (42786, 42787), (42788, 42789),
   (42790, 42791), (42792, 42793), (42794, 42795), (42796, 42797), (42798, 42799), (42802, 42803),
   (42804, 42805), (42806, 42807), (42808, 42809), (42810, 42811), (42812, 42813), (42814, 42815),
   (42816, 42817), (42818, 42819), (42820, 42821), (42822, 42823), (42824, 42825), (42826, 42827),
   (42828, 42829), (42830, 42831), (42832, 42833), (42834, 42835), (42836, 42837), (42838, 42839),
   (42840, 42841), (42842, 42843), (42844, 42845), (42846, 42847), (42848, 42849), (42850, 42851),
   (42852, 42853), (42854, 42855), (42856, 42857), (42858, 42859), (42860, 42861), (42862, 42863),
   (42873, 42874), (42875, 42876), (42877, 7545), (42878, 42879), (42880, 42881), (42882, 42883),
   (42884, 42885), (42886, 42887), (42891, 42892), (42893, 613), (42896, 42897), (42898, 42899),
   (42902, 42903), (42904, 42905), (42906, 42907), (42908, 42909), (42910, 42911), (42912, 42913),
   (42914, 42915), (42916, 42917), (42918, 42919), (42920, 42921), (42922, 614), (42923, 604),
   (42924, 609), (42925, 620), (42926, 618), (42928, 670), (42929, 647), (42930, 669),
   (42931, 43859), (42932, 42933), (42934, 42935), (42936, 42937), (42938, 42939), (42940, 42941),
   (42942, 42943), (42944, 42945), (42946, 42947), (42948, 42900), (42949, 642), (42950, 7566),
   (42951, 42952), (42953, 42954), (42960, 42961), (42966, 42967), (42968, 42969), (42997, 42998),
   (65313, 65345), (65314, 65346), (65315, 65347), (65316, 65348), (65317, 65349), (65318, 65350),
   (65319, 65351), (65320, 65352), (65321, 65353), (65322, 65354), (65323, 65355), (65324, 65356),
   (65325, 65357), (65326, 65358), (65327, 65359), (65328, 65360), (65329, 65361), (65330, 65362),
   (65331, 65363), (65332, 65364), (65333, 65365), (65334, 65366), (65335, 65367), (65336, 65368),
   (65337, 65369), (65338, 65370), (66560, 66600), (66561, 66601), (66562, 66602), (66563, 66603),
   (66564, 66604), (66565, 66605), (66566, 66606), (66567, 66607), (66568, 66608), (66569, 66609),
   (66570, 66610), (66571, 66611), (66572, 66612), (66573, 66613), (66574, 66614), (66575, 66615),
   (66576, 66616), (66577, 66617), (66578, 66618), (66579, 66619), (66580, 66620), (66581, 66621),
   (66582, 66622), (66583, 66623), (66584, 66624), (66585, 66625), (66586, 66626), (66587, 66627)]

def lowerPairs9 : List (Nat × Nat) :=
  [(66588, 66628), (66589, 66629), (66590, 66630), (66591, 66631), (66592, 66632), (66593, 66633),
   (66594, 66634), (66595, 66635), (66596, 66636), (66597, 66637), (66598, 66638), (66599, 66639),
   (66736, 66776), (66737, 66777), (66738, 66778), (66739, 66779), (66740, 66780), (66741, 66781),
   (66742, 66782), (66743, 66783), (66744, 66784), (66745, 66785), (66746, 66786), (66747, 66787),
   (66748, 66788), (66749, 66789), (66750, 66790), (66751, 66791), (66752, 66792), (66753, 66793),
   (66754, 66794), (66755, 66795), (66756, 66796), (66757, 66797), (66758, 66798), (66759, 66799),
   (66760, 66800), (66761, 66801), (66762, 66802), (66763, 66803), (66764, 66804), (66765, 66805),
   (66766, 66806), (66767, 66807), (66768, 66808), (66769, 66809), (66770, 66810), (66771, 66811),
   (66928, 66967), (66929, 66968), (66930, 66969), (66931, 66970), (66932, 66971), (66933, 66972),
   (66934, 66973), (66935, 66974), (66936, 66975), (66937, 66976), (66938, 66977), (66940, 66979),
   (66941, 66980), (66942, 66981), (66943, 66982), (66944, 66983), (66945, 66984), (66946, 66985),
   (66947, 66986), (66948, 66987), (66949, 66988), (66950, 66989), (66951, 66990), (66952, 66991),
   (66953, 66992), (66954, 66993), (66956, 66995), (66957, 66996), (66958, 66997), (66959, 66998),
   (66960, 66999), (66961, 67000), (66962, 67001), (66964, 67003), (66965, 67004), (68736, 68800),
   (68737, 68801), (68738, 68802), (68739, 68803), (68740, 68804), (68741, 68805), (68742, 68806),
   (68743, 68807), (68744, 68808), (68745, 68809), (68746, 68810), (68747, 68811), (68748, 68812),
   (68749, 68813), (68750, 68814), (68751, 68815), (68752, 68816), (68753, 68817), (68754, 68818),
   (68755, 68819), (68756, 68820), (68757, 68821), (68758, 68822), (68759, 68823), (68760, 68824),
   (68761, 68825), (68762, 68826), (68763, 68827), (68764, 68828), (68765, 68829), (68766, 68830),
   (68767, 68831), (68768, 68832), (68769, 68833), (68770, 68834), (68771, 68835), (68772, 68836),
   (68773, 68837), (68774, 68838), (68775, 68839), (68776, 68840), (68777, 68841), (68778, 68842),
   (68779, 68843), (68780, 68844), (68781, 68845), (68782, 68846), (68783, 68847), (68784, 68848),
   (68785, 68849), (68786, 68850), (71840, 71872), (71841, 71873), (71842, 71874), (71843, 71875),
   (71844, 71876), (71845, 71877), (71846, 71878), (71847, 71879), (71848, 71880), (71849, 71881),
   (71850, 71882), (71851, 71883), (71852, 71884), (71853, 71885), (71854, 71886), (71855, 71887)]

def lowerPairs10 : List (Nat × Nat) :=
  [(71856, 71888), (71857, 71889), (71858, 71890), (71859, 71891), (71860, 71892), (71861, 71893),
   (71862, 71894), (71863, 71895), (71864, 71896), (71865, 71897), (71866, 71898), (71867, 71899),
   (71868, 71900), (71869, 71901), (71870, 71902), (71871, 71903), (93760, 93792), (93761, 93793),
   (93762, 93794), (93763, 93795), (93764, 93796), (93765, 93797), (93766, 93798), (93767, 93799),
   (93768, 93800), (93769, 93801), (93770, 93802), (93771, 93803), (93772, 93804), (93773, 93805),
   (93774, 93806), (93775, 93807), (93776, 93808), (93777, 93809), (93778, 93810), (93779, 93811),
   (93780, 93812), (93781, 93813), (93782, 93814), (93783, 93815), (93784, 93816), (93785, 93817),
   (93786, 93818), (93787, 93819), (93788, 93820), (93789, 93821), (93790, 93822), (93791, 93823),
   (125184, 125218), (125185, 125219), (125186, 125220), (125187, 125221), (125188, 125222), (125189, 125223),
   (125190, 125224), (125191, 125225), (125192, 125226), (125193, 125227), (125194, 125228), (125195, 125229),
   (125196, 125230), (125197, 125231), (125198, 125232), (125199, 125233), (125200, 125234), (125201, 125235),
   (125202, 125236), (125203, 125237), (125204, 125238), (125205, 125239), (125206, 125240), (125207, 125241),
   (125208, 125242), (125209, 125243), (125210, 125244), (125211, 125245), (125212, 125246), (125213, 125247),
   (125214, 125248), (125215, 125249), (125216, 125250), (125217, 125251)]

/-- The codepoints that Python str.lower maps to a single different
codepoint, with their images, per the Unicode 14.0 tables of CPython
3.11; every codepoint not listed here and not equal to 304 is a fixed
point of str.lower. -/
def lowerPairs : List (Nat × Nat) :=
  lowerPairs1 ++ lowerPairs2 ++ lowerPairs3 ++ lowerPairs4 ++ lowerPairs5 ++ lowerPairs6 ++ lowerPairs7 ++ lowerPairs8 ++ lowerPairs9 ++ lowerPairs10

/-- Python str.lower on one character. The dotless-I codepoint 304 is
the unique codepoint whose lowercase form is two characters long. -/
def pyLowerChar (c : Char) : List Char :=
  if c.toNat = 304 then [Char.ofNat 105, Char.ofNat 775]
  else
    match lowerPairs.lookup c.toNat with
    | some n => [Char.ofNat n]
    | none => [c]

/-- One anchored attempt of the severity pattern, whitespace then the
literal then whitespace then a word: greedy whitespace skip, the
severity literal, greedy whitespace skip, then a nonempty run of word
characters, returned as the capture group. -/
def matchSevAt (s : List Char) : Option (List Char) :=
  let s1 := s.dropWhile pyIsSpace
  if sevLit.isPrefixOf s1 then
    let w := ((s1.drop sevLit.length).dropWhile pyIsSpace).takeWhile isWordChar
    if w.isEmpty then none else some w
  else none

/-- Lines 57-59 of process_file: re.search of the anchored severity
pattern in MULTILINE mode; capture group 1 lower-cased on success, the
default label otherwise. -/
def extractSeverity (content : List Char) : List Char :=
  match (lineSuffixes content).findSome? matchSevAt with
  | some w => (w.map pyLowerChar).flatten
  | none => "unknown".toList

def primaryKeywords : List (List Char) :=
  ["HTTP".toList, "GET".toList, "POST".toList, "PUT".toList, "BaseURL".toList]

def secondaryKeywords : List (List Char) :=
  ["/readme.txt".toList, "/style.css".toList]

/-- Python substring containment, the binary in operator on str: the
needle occurs contiguously somewhere in the haystack. -/
def isSubstr : List Char → List Char → Bool
  | p, [] => p.isEmpty
  | p, c :: cs => p.isPrefixOf (c :: cs) || isSubstr p cs

/-- Lines 61-66 of process_file: scan the lines; the flag becomes true at
the first line containing both a primary and a secondary keyword as
plain substrings. -/
def skipKeywordFlag (content : List Char) : Bool :=
  (splitlines content).any fun line =>
    (primaryKeywords.any fun p => isSubstr p line) &&
    (secondaryKeywords.any fun s => isSubstr s line)

/-- UTF-8 encoding of one scalar value, as Python str.encode produces. -/
def utf8Char (c : Char) : List Nat :=
  let n := c.toNat
  if n < 128 then [n]
  else if n < 2048 then [192 + n / 64, 128 + n % 64]
  else if n < 65536 then [224 + n / 4096, 128 + n / 64 % 64, 128 + n % 64]
  else [240 + n / 262144, 128 + n / 4096 % 64, 128 + n / 64 % 64, 128 + n % 64]

/-- UTF-8 encoding of a text, one byte per list entry. -/
def utf8Encode (s : List Char) : List Nat :=
  (s.map utf8Char).flatten

/-- Reduction to a 32-bit word. -/
def u32 (n : Nat) : Nat := n % 4294967296

/-- 32-bit left rotation. -/
def rotl32 (x s : Nat) : Nat :=
  u32 (Nat.lor (Nat.shiftLeft x s) (Nat.shiftRight (u32 x) (32 - s)))

/-- MD5 auxiliary function F of RFC 1321. -/
def md5F (b c d : Nat) : Nat :=
  Nat.lor (Nat.land b c) (Nat.land (Nat.xor (u32 b) 4294967295) d)

/-- MD5 auxiliary function G of RFC 1321. -/
def md5G (b c d : Nat) : Nat :=
  Nat.lor (Nat.land d b) (Nat.land (Nat.xor (u32 d) 4294967295) c)

/-- MD5 auxiliary function H of RFC 1321. -/
def md5H (b c d : Nat) : Nat :=
  Nat.xor b (Nat.xor c d)

/-- MD5 auxiliary function I of RFC 1321. -/
def md5I (b c d : Nat) : Nat :=
  Nat.xor c (Nat.lor b (Nat.xor (u32 d) 4294967295))

/-- The 64 MD5 sine-derived constants of RFC 1321. -/
def md5K : List Nat :=
  [0xd76aa478, 0xe8c7b756, 0x242070db, 0xc1bdceee,
   0xf57c0faf, 0x4787c62a, 0xa8304613, 0xfd469501,
   0x698098d8, 0x8b44f7af, 0xffff5bb1, 0x895cd7be,
   0x6b901122, 0xfd987193, 0xa679438e, 0x49b40821,
   0xf61e2562, 0xc040b340, 0x265e5a51, 0xe9b6c7aa,
   0xd62f105d, 0x02441453, 0xd8a1e681, 0xe7d3fbc8,
   0x21e1cde6, 0xc33707d6, 0xf4d50d87, 0x455a14ed,
   0xa9e3e905, 0xfcefa3f8, 0x676f02d9, 0x8d2a4c8a,
   0xfffa3942, 0x8771f681, 0x6d9d6122, 0xfde5380c,
   0xa4beea44, 0x4bdecfa9, 0xf6bb4b60, 0xbebfbc70,
   0x289b7ec6, 0xeaa127fa, 0xd4ef3085, 0x04881d05,
   0xd9d4d039, 0xe6db99e5, 0x1fa27cf8, 0xc4ac5665,
   0xf4292244, 0x432aff97, 0xab9423a7, 0xfc93a039,
   0x655b59c3, 0x8f0ccc92, 0xffeff47d, 0x85845dd1,
   0x6fa87e4f, 0xfe2ce6e0, 0xa3014314, 0x4e0811a1,
   0xf7537e82, 0xbd3af235, 0x2ad7d2bb, 0xeb86d391]

/-- The 64 MD5 per-round shift amounts of RFC 1321. -/
def md5S : List Nat :=
  [7, 12, 17, 22, 7, 12, 17, 22, 7, 12, 17, 22, 7, 12, 17, 22,
   5, 9, 14, 20, 5, 9, 14, 20, 5, 9, 14, 20, 5, 9, 14, 20,
   4, 11, 16, 23, 4, 11, 16, 23, 4, 11, 16, 23, 4, 11, 16, 23,
   6, 10, 15, 21, 6, 10, 15, 21, 6, 10, 15, 21, 6, 10, 15, 21]

/-- Message-word index used by MD5 step i. -/
def md5g (i : Nat) : Nat :=
  if i < 16 then i
  else if i < 32 then (5 * i + 1) % 16
  else if i < 48 then (3 * i + 5) % 16
  else (7 * i) % 16

/-- Auxiliary-function selection for MD5 step i. -/
def md5Mix (i b c d : Nat) : Nat :=
  if i < 16 then md5F b c d
  else if i < 32 then md5G b c d
  else if i < 48 then md5H b c d
  else md5I b c d

/-- Little-endian 32-bit word number j of a 64-byte block. -/
def leWord (m : List Nat) (j : Nat) : Nat :=
  m.getD (4 * j) 0 + 256 * m.getD (4 * j + 1) 0 +
    65536 * m.getD (4 * j + 2) 0 + 16777216 * m.getD (4 * j + 3) 0

/-- One of the 64 MD5 steps on the rotating state quadruple. -/
def md5Round (m : List Nat) (st : Nat × Nat × Nat × Nat) (i : Nat) :
    Nat × Nat × Nat × Nat :=
  let a := st.1
  let b := st.2.1
  let c := st.2.2.1
  let d := st.2.2.2
  let f := u32 (a + md5Mix i b c d + md5K.getD i 0 + leWord m (md5g i))
  (d, u32 (b + rotl32 f (md5S.getD i 0)), b, c)

/-- Processing of one padded 64-byte block. -/
def md5Block (st : Nat × Nat × Nat × Nat) (m : List Nat) :
    Nat × Nat × Nat × Nat :=
  let r := (List.range 64).foldl (md5Round m) st
  (u32 (st.1 + r.1), u32 (st.2.1 + r.2.1),
   u32 (st.2.2.1 + r.2.2.1), u32 (st.2.2.2 + r.2.2.2))

/-- The eight little-endian bytes of the message bit length. -/
def lenBytes (len : Nat) : List Nat :=
  (List.range 8).map fun i => 8 * len / 256 ^ i % 256

/-- RFC 1321 padding: a byte 128, zeros up to 56 modulo 64, then the
bit-length field. -/
def md5Pad (msg : List Nat) : List Nat :=
  msg ++ 128 :: List.replicate ((119 - msg.length % 64) % 64) 0 ++
    lenBytes msg.length

/-- Split a byte list into 64-byte chunks, structurally. -/
def chunks64Aux : Nat → List Nat → List (List Nat)
  | _, [] => []
  | 0, _ => []
  | fuel + 1, l => l.take 64 :: chunks64Aux fuel (l.drop 64)

/-- Split a byte list into 64-byte chunks. -/
def chunks64 (l : List Nat) : List (List Nat) :=
  chunks64Aux l.length l

/-- The MD5 initial state of RFC 1321. -/
def md5Init : Nat × Nat × Nat × Nat :=
  (0x67452301, 0xefcdab89, 0x98badcfe, 0x10325476)

/-- The four little-endian bytes of one state word. -/
def wordLEBytes (w : Nat) : List Nat :=
  [w % 256, w / 256 % 256, w / 65536 % 256, w / 16777216 % 256]

/-- The 16 digest bytes of the MD5 of a byte message. -/
def md5Bytes (msg : List Nat) : List Nat :=
  let r := (chunks64 (md5Pad msg)).foldl md5Block md5Init
  wordLEBytes r.1 ++ wordLEBytes r.2.1 ++ wordLEBytes r.2.2.1 ++
    wordLEBytes r.2.2.2

def hexChars : List Char := "0123456789abcdef".toList

/-- Lowercase hexadecimal digit of the low four bits. -/
def hexDigit (n : Nat) : Char := hexChars.getD (n % 16) '0'

/-- Two lowercase hexadecimal digits of one byte. -/
def byteHex (b : Nat) : List Char := [hexDigit (b / 16), hexDigit b]

/-- hashlib md5 hexdigest of a byte message: 32 lowercase hexadecimal
characters. -/
def md5Hex (msg : List Nat) : List Char :=
  ((md5Bytes msg).map byteHex).flatten

/-- The per-file record built by process_file (the result dict of lines
40-46): path, basename, optional fingerprint, severity label, and the
keyword-skip flag. -/
structure FileResult where
  path : List Char
  filename : List Char
  hash : Option (List Char)
  severity : List Char
  skip_keyword : Bool
deriving DecidableEq

/-- os.path.basename: the component after the final path separator. -/
def basename (p : List Char) : List Char :=
  (p.reverse.takeWhile (fun c => !decide (c = '/'))).reverse

/-- Lines 36-68 of process_file on successfully read file content: if the
request-marker search fails the function returns None (line 55);
otherwise it returns the record with the MD5 fingerprint of the
normalized signature block, the extracted severity, and the
keyword-skip flag. -/
def process_file (path content : List Char) : Option FileResult :=
  match findSig content with
  | none => none
  | some block =>
    some
      { path := path
        filename := basename path
        hash := some (md5Hex (utf8Encode (normalizeSignature block)))
        severity := extractSeverity content
        skip_keyword := skipKeywordFlag content }

/-- The stats counter dict of main line 114. -/
structure RunStats where
  copied : Nat
  duplicate : Nat
  severity_skipped : Nat
  keyword_skipped : Nat
  error : Nat
deriving DecidableEq

/-- The mutable state of the drain loop of main: the seen-hashes set
(modelled as a duplicate-free list), the counters, and the files copied
to the destination so far (newest first). -/
structure DrainState where
  seen : List (Option (List Char))
  stats : RunStats
  copiedFiles : List FileResult
deriving DecidableEq

def initState : DrainState :=
  { seen := [], stats := ⟨0, 0, 0, 0, 0⟩, copiedFiles := [] }

/-- Lines 122-144 of main, the body of the drain loop for one completed
result: error, duplicate, severity and keyword exclusion, else copy,
tested in that order. -/
def drainStep (excluded : List (List Char)) (st : DrainState)
    (r : Option FileResult) : DrainState :=
  match r with
  | none =>
    { st with stats := { st.stats with error := st.stats.error + 1 } }
  | some res =>
    if res.hash ∈ st.seen then
      { st with stats := { st.stats with duplicate := st.stats.duplicate + 1 } }
    else if res.severity ∈ excluded then
      { st with stats :=
          { st.stats with severity_skipped := st.stats.severity_skipped + 1 } }
    else if res.skip_keyword then
      { st with stats :=
          { st.stats with keyword_skipped := st.stats.keyword_skipped + 1 } }
    else
      { seen := res.hash :: st.seen
        stats := { st.stats with copied := st.stats.copied + 1 }
        copiedFiles := res :: st.copiedFiles }

/-- The whole drain loop of main, consuming evaluation results in
completion order. -/
def drain (excluded : List (List Char)) (results : List (Option FileResult)) :
    DrainState :=
  results.foldl (drainStep excluded) initState

/-- The specification reading of normalization: the whitespace-free
residue of each non-comment line, concatenated. -/
def specCore (b : List Char) : List Char :=
  (((splitlines b).filter (fun l => !isCommentLine l)).map removeWS).flatten

theorem foldlPreserve {α β : Type} (P : β → Prop) (f : β → α → β)
    (hstep : ∀ b a, P b → P (f b a)) :
    ∀ (l : List α) (b : β), P b → P (l.foldl f b)
  | [], _, hb => hb
  | a :: l, b, hb => foldlPreserve P f hstep l (f b a) (hstep b a hb)

theorem isSubstr_iff (p l : List Char) :
    isSubstr p l = true ↔ ∃ u v, u ++ p ++ v = l := by
  induction l with
  | nil =>
    simp only [isSubstr, List.isEmpty_iff]
    constructor
    · rintro rfl
      exact ⟨[], [], rfl⟩
    · rintro ⟨u, v, h⟩
      obtain ⟨h1, -⟩ := List.append_eq_nil.mp h
      exact (List.append_eq_nil.mp h1).2
  | cons c cs ih =>
    simp only [isSubstr, Bool.or_eq_true, ih, List.isPrefixOf_iff_prefix]
    constructor
    · rintro (⟨t, ht⟩ | ⟨u, v, huv⟩)
      · exact ⟨[], t, by simpa using ht⟩
      · exact ⟨c :: u, v, by simp [huv]⟩
    · rintro ⟨u, v, huv⟩
      cases u with
      | nil => exact Or.inl ⟨v, by simpa using huv⟩
      | cons x u2 =>
        right
        simp only [List.cons_append] at huv
        exact ⟨u2, v, (List.cons_eq_cons.mp huv).2⟩

/-- C6: the keyword-skip flag is true exactly when some single line of
the text contains, by plain case-sensitive substring containment, both a
primary keyword and a secondary keyword. -/
theorem keyword_skip_iff (content : List Char) :
    skipKeywordFlag content = true ↔
      ∃ line ∈ splitlines content,
        (∃ p ∈ primaryKeywords, ∃ u v, u ++ p ++ v = line) ∧
        (∃ s ∈ secondaryKeywords, ∃ u v, u ++ s ++ v = line) := by
  simp only [skipKeywordFlag, List.any_eq_true, Bool.and_eq_true, isSubstr_iff]

theorem findSigAux_spec (s : List Char) :
    findSigAux true s = (lineSuffixes s).find? sigAt ∧
    findSigAux false s = (tailsAfterNL s).find? sigAt := by
  induction s with
  | nil =>
    refine ⟨?_, rfl⟩
    have h : sigAt [] = false := by decide
    simp [findSigAux, lineSuffixes, tailsAfterNL, List.find?, h]
  | cons c cs ih =>
    have hbody : findSigAux (decide (c = '\n')) cs =
        List.find? sigAt (tailsAfterNL (c :: cs)) := by
      by_cases hc : c = '\n'
      · subst hc
        simpa [tailsAfterNL, lineSuffixes] using ih.1
      · simpa [tailsAfterNL, hc] using ih.2
    constructor
    · by_cases hs : sigAt (c :: cs)
      · simp [findSigAux, hs, lineSuffixes, List.find?_cons_of_pos]
      · simp only [findSigAux, Bool.true_and, hs, if_false, Bool.false_eq_true,
          lineSuffixes]
        rw [List.find?_cons_of_neg _ (by simp [hs])]
        exact hbody
    · simp only [findSigAux, Bool.false_and, Bool.false_eq_true, if_false]
      exact hbody

theorem findSig_eq_find (s : List Char) :
    findSig s = (lineSuffixes s).find? sigAt :=
  (findSigAux_spec s).1

theorem removeWS_append_nl (l r : List Char) :
    removeWS (l ++ '\n' :: r) = removeWS l ++ removeWS r := by
  have h : (!pyIsSpace '\n') = false := by decide
  simp [removeWS, List.filter_append, List.filter_cons, h]

theorem removeWS_joinNL : ∀ ls, removeWS (joinNL ls) = (ls.map removeWS).flatten
  | [] => rfl
  | [l] => by simp [joinNL]
  | l :: l2 :: ls2 => by
    show removeWS (l ++ '\n' :: joinNL (l2 :: ls2)) = _
    rw [removeWS_append_nl, removeWS_joinNL (l2 :: ls2)]
    simp

theorem normalizeSignature_eq_specCore (b : List Char) :
    normalizeSignature b = specCore b :=
  removeWS_joinNL _

theorem sigAt_iff (s : List Char) :
    sigAt s = true ↔ (∃ u, reqLit ++ u = s) ∨ (∃ u, httpLit ++ u = s) := by
  simp only [sigAt, Bool.or_eq_true, List.isPrefixOf_iff_prefix]
  exact Iff.rfl

/-- C2: the Signature Extractor returns the first line-start suffix of
the content matching the request-marker pattern, where a match is
exactly the literal requests: or http: at column 0; when no line-start
matches, process_file returns the no-signature skip signal and no
record (hence no hash) is produced; and the normalized signature of a
block is the whitespace-free residue of its non-comment lines (lines
whose stripped form starts with the comment character are removed, all
whitespace including newlines is deleted). -/
theorem signature_extractor_spec (path content b : List Char) :
    findSig content = (lineSuffixes content).find? sigAt ∧
    ((process_file path content).isNone ↔ (findSig content).isNone) ∧
    (sigAt b = true ↔ (∃ u, reqLit ++ u = b) ∨ (∃ u, httpLit ++ u = b)) ∧
    normalizeSignature b = specCore b := by
  refine ⟨findSig_eq_find content, ?_, sigAt_iff b, normalizeSignature_eq_specCore b⟩
  cases h : findSig content <;> simp [process_file, h]

/-- C1: for every consumed result the drain body takes exactly one of the
five outcomes, tested in the fixed order error, duplicate,
severity-excluded, keyword-excluded, copy; the first applicable branch
determines the whole state change, and only the copy branch inserts the
fingerprint, records the copied file and increments the copied count. -/
theorem drain_step_precedence (ex : List (List Char)) (st : DrainState)
    (r : Option FileResult) :
    (r = none ∧ drainStep ex st r =
      { st with stats := { st.stats with error := st.stats.error + 1 } }) ∨
    (∃ res, r = some res ∧ res.hash ∈ st.seen ∧ drainStep ex st r =
      { st with stats := { st.stats with duplicate := st.stats.duplicate + 1 } }) ∨
    (∃ res, r = some res ∧ res.hash ∉ st.seen ∧ res.severity ∈ ex ∧
      drainStep ex st r =
      { st with stats :=
          { st.stats with severity_skipped := st.stats.severity_skipped + 1 } }) ∨
    (∃ res, r = some res ∧ res.hash ∉ st.seen ∧ res.severity ∉ ex ∧
      res.skip_keyword = true ∧ drainStep ex st r =
      { st with stats :=
          { st.stats with keyword_skipped := st.stats.keyword_skipped + 1 } }) ∨
    (∃ res, r = some res ∧ res.hash ∉ st.seen ∧ res.severity ∉ ex ∧
      res.skip_keyword = false ∧ drainStep ex st r =
      { seen := res.hash :: st.seen
        stats := { st.stats with copied := st.stats.copied + 1 }
        copiedFiles := res :: st.copiedFiles }) := by
  cases r with
  | none => exact Or.inl ⟨rfl, rfl⟩
  | some res =>
    by_cases h1 : res.hash ∈ st.seen
    · exact Or.inr (Or.inl ⟨res, rfl, h1, by simp [drainStep, h1]⟩)
    · by_cases h2 : res.severity ∈ ex
      · exact Or.inr (Or.inr (Or.inl ⟨res, rfl, h1, h2,
          by simp [drainStep, h1, h2]⟩))
      · by_cases h3 : res.skip_keyword = true
        · exact Or.inr (Or.inr (Or.inr (Or.inl ⟨res, rfl, h1, h2, h3,
            by simp [drainStep, h1, h2, h3]⟩)))
        · have h3f : res.skip_keyword = false := by simpa using h3
          exact Or.inr (Or.inr (Or.inr (Or.inr ⟨res, rfl, h1, h2, h3f,
            by simp [drainStep, h1, h2, h3f]⟩)))

/-- Invariant of the drain state: the seen set lists exactly the hashes
of the copied files, without duplicates, and every copied file passed
the severity and keyword filters. -/
def DrainInv (ex : List (List Char)) (st : DrainState) : Prop :=
  st.seen = st.copiedFiles.map FileResult.hash ∧ st.seen.Nodup ∧
  ∀ res ∈ st.copiedFiles, res.severity ∉ ex ∧ res.skip_keyword = false

theorem drainStep_inv (ex : List (List Char)) (st : DrainState)
    (r : Option FileResult) (h : DrainInv ex st) :
    DrainInv ex (drainStep ex st r) := by
  obtain ⟨hmap, hnd, hcop⟩ := h
  cases r with
  | none => exact ⟨hmap, hnd, hcop⟩
  | some res =>
    simp only [drainStep]
    split_ifs with h1 h2 h3
    · exact ⟨hmap, hnd, hcop⟩
    · exact ⟨hmap, hnd, hcop⟩
    · exact ⟨hmap, hnd, hcop⟩
    · refine ⟨by simp [hmap], List.nodup_cons.mpr ⟨h1, hnd⟩, ?_⟩
      intro x hx
      rcases List.mem_cons.mp hx with rfl | hx2
      · exact ⟨h2, by simpa using h3⟩
      · exact hcop x hx2

theorem drain_inv (ex : List (List Char)) (results : List (Option FileResult)) :
    DrainInv ex (drain ex results) :=
  foldlPreserve (DrainInv ex) (drainStep ex)
    (fun st r h => drainStep_inv ex st r h) results initState
    ⟨rfl, List.nodup_nil, fun x hx => absurd hx (List.not_mem_nil x)⟩

theorem countP_le_one_of_map_nodup {α β : Type} [DecidableEq β] (f : α → β)
    (l : List α) (hnd : (l.map f).Nodup) (b : β) :
    l.countP (fun a => decide (f a = b)) ≤ 1 := by
  induction l with
  | nil => simp [List.countP, List.countP.go]
  | cons a l ih =>
    simp only [List.map_cons, List.nodup_cons] at hnd
    obtain ⟨hna, hnd2⟩ := hnd
    rw [List.countP_cons]
    by_cases hab : f a = b
    · have hz : l.countP (fun a => decide (f a = b)) = 0 := by
        rw [List.countP_eq_zero]
        intro x hx
        simp only [decide_eq_true_eq]
        intro hfx
        apply hna
        have hmem : f x ∈ l.map f := List.mem_map_of_mem f hx
        rwa [hfx, ← hab] at hmem
      simp [hz, hab]
    · simp only [hab, decide_eq_false_iff_not, if_neg, decide_eq_true_eq]
      simpa [hab] using ih hnd2

/-- A severity-info evaluation result; infoRes2 shares its fingerprint,
forming a duplicate group. -/
def infoRes : FileResult :=
  { path := "a.yaml".toList, filename := "a.yaml".toList,
    hash := some ("cafe".toList), severity := "info".toList,
    skip_keyword := false }

def infoRes2 : FileResult :=
  { infoRes with path := "b.yaml".toList, filename := "b.yaml".toList }

/-- A severity-high result sharing the fingerprint of infoRes. -/
def highRes : FileResult :=
  { path := "c.yaml".toList, filename := "c.yaml".toList,
    hash := some ("cafe".toList), severity := "high".toList,
    skip_keyword := false }

/-- C4 counterexample: a fingerprint group whose two members are both in
the excluded-severity set gets zero copies, not exactly one, and its
fingerprint is never inserted into the seen set. -/
theorem dedup_exactly_once_counterexample :
    infoRes.hash = infoRes2.hash ∧ infoRes.hash.isSome = true ∧
    (drain ["info".toList] [some infoRes, some infoRes2]).copiedFiles = [] ∧
    (drain ["info".toList] [some infoRes, some infoRes2]).seen = [] := by
  decide

/-- C4 amended: at most one member of any fingerprint group is copied,
in any processing order; a fingerprint is inserted into the seen set at
most once per run, and exactly the hashes of the copied representatives
are inserted. -/
theorem dedup_at_most_once (ex : List (List Char))
    (results : List (Option FileResult)) (fp : Option (List Char)) :
    (drain ex results).seen = (drain ex results).copiedFiles.map FileResult.hash ∧
    (drain ex results).seen.Nodup ∧
    (drain ex results).copiedFiles.countP (fun res => decide (res.hash = fp)) ≤ 1 := by
  obtain ⟨hmap, hnd, -⟩ := drain_inv ex results
  refine ⟨hmap, hnd, ?_⟩
  rw [hmap] at hnd
  exact countP_le_one_of_map_nodup FileResult.hash _ hnd fp

/-- C5: a result whose severity label is in the configured exclusion set
is never copied to the destination, whatever its position in its
fingerprint group. -/
theorem severity_excluded_never_copied (ex : List (List Char))
    (results : List (Option FileResult)) (res : FileResult)
    (h : res.severity ∈ ex) :
    res ∉ (drain ex results).copiedFiles := by
  intro hmem
  obtain ⟨-, -, hcop⟩ := drain_inv ex results
  exact (hcop res hmem).1 h

theorem severity_excluded_never_copied_witness :
    infoRes.severity ∈ ["info".toList] ∧
    infoRes ∉ (drain ["info".toList] [some infoRes]).copiedFiles :=
  ⟨by decide, severity_excluded_never_copied ["info".toList] [some infoRes]
    infoRes (by decide)⟩

/-- The admissible-hash projection of a result: the fingerprint of a
successful result that passes both the severity filter and the keyword
filter. A fingerprint ends up in the seen set exactly when some result
of the run projects to it. -/
def admHash (ex : List (List Char)) : Option FileResult → Option (Option (List Char))
  | none => none
  | some res =>
    if res.severity ∈ ex ∨ res.skip_keyword = true then none else some res.hash

theorem foldDrain_seen (ex : List (List Char)) (results : List (Option FileResult)) :
    ∀ (st : DrainState) (h : Option (List Char)),
      h ∈ (results.foldl (drainStep ex) st).seen ↔
        h ∈ st.seen ∨ h ∈ results.filterMap (admHash ex) := by
  induction results with
  | nil =>
    intro st h
    simp
  | cons r rs ih =>
    intro st h
    rw [List.foldl_cons, ih (drainStep ex st r) h]
    cases r with
    | none => simp [drainStep, admHash, List.filterMap_cons]
    | some res =>
      by_cases h1 : res.hash ∈ st.seen
      · by_cases hadm : res.severity ∈ ex ∨ res.skip_keyword = true
        · simp [drainStep, h1, admHash, hadm, List.filterMap_cons]
        · simp only [drainStep, if_pos h1, admHash, if_neg hadm,
            List.filterMap_cons, List.mem_cons]
          constructor
          · rintro (hs | hm)
            · exact Or.inl hs
            · exact Or.inr (Or.inr hm)
          · rintro (hs | rfl | hm)
            · exact Or.inl hs
            · exact Or.inl h1
            · exact Or.inr hm
      · by_cases h2 : res.severity ∈ ex
        · simp [drainStep, h1, h2, admHash, List.filterMap_cons]
        · by_cases h3 : res.skip_keyword = true
          · simp [drainStep, h1, h2, h3, admHash, List.filterMap_cons]
          · have hadm : ¬(res.severity ∈ ex ∨ res.skip_keyword = true) := by
              tauto
            simp only [drainStep, if_neg h1, if_neg h2, if_neg h3, admHash,
              if_neg hadm, List.filterMap_cons, List.mem_cons]
            tauto

theorem drainStep_copied_seen (ex : List (List Char)) (st : DrainState)
    (r : Option FileResult) :
    (drainStep ex st r).stats.copied + st.seen.length =
      st.stats.copied + (drainStep ex st r).seen.length := by
  cases r with
  | none => rfl
  | some res =>
    simp only [drainStep]
    split_ifs <;> first | rfl | (simp only [List.length_cons]; omega)

theorem foldDrain_copied (ex : List (List Char)) (results : List (Option FileResult)) :
    ∀ st : DrainState,
      (results.foldl (drainStep ex) st).stats.copied + st.seen.length =
        st.stats.copied + (results.foldl (drainStep ex) st).seen.length := by
  induction results with
  | nil => intro st; rfl
  | cons r rs ih =>
    intro st
    rw [List.foldl_cons]
    have h1 := ih (drainStep ex st r)
    have h2 := drainStep_copied_seen ex st r
    omega

theorem drainStep_error (ex : List (List Char)) (st : DrainState)
    (r : Option FileResult) :
    (drainStep ex st r).stats.error =
      st.stats.error + (if r.isNone then 1 else 0) := by
  cases r with
  | none => rfl
  | some res =>
    have hr : (if (some res : Option FileResult).isNone then 1 else 0) = 0 := rfl
    rw [hr, Nat.add_zero]
    simp only [drainStep]
    split_ifs <;> rfl

theorem foldDrain_error (ex : List (List Char)) (results : List (Option FileResult)) :
    ∀ st : DrainState,
      (results.foldl (drainStep ex) st).stats.error =
        st.stats.error + results.countP (fun r => r.isNone) := by
  induction results with
  | nil => intro st; simp [List.countP, List.countP.go]
  | cons r rs ih =>
    intro st
    rw [List.foldl_cons, List.countP_cons]
    have h1 := ih (drainStep ex st r)
    have h2 := drainStep_error ex st r
    by_cases hr : r.isNone <;> simp [hr] at h2 ⊢ <;> omega

/-- Sum of the five outcome counters. -/
def statTotal (s : RunStats) : Nat :=
  s.copied + s.duplicate + s.severity_skipped + s.keyword_skipped + s.error

theorem drainStep_total (ex : List (List Char)) (st : DrainState)
    (r : Option FileResult) :
    statTotal (drainStep ex st r).stats = statTotal st.stats + 1 := by
  cases r with
  | none =>
    simp only [drainStep, statTotal]
    omega
  | some res =>
    simp only [drainStep]
    split_ifs <;> (simp only [statTotal]; omega)

theorem foldDrain_total (ex : List (List Char)) (results : List (Option FileResult)) :
    ∀ st : DrainState,
      statTotal (results.foldl (drainStep ex) st).stats =
        statTotal st.stats + results.length := by
  induction results with
  | nil => intro st; rfl
  | cons r rs ih =>
    intro st
    rw [List.foldl_cons]
    have h1 := ih (drainStep ex st r)
    have h2 := drainStep_total ex st r
    simp [List.length_cons]
    omega

theorem drain_error_count (ex : List (List Char)) (results : List (Option FileResult)) :
    (drain ex results).stats.error = results.countP (fun r => r.isNone) := by
  have h := foldDrain_error ex results initState
  simp only [drain]
  simpa [initState] using h

theorem drain_total_eq_length (ex : List (List Char)) (results : List (Option FileResult)) :
    statTotal (drain ex results).stats = results.length := by
  have h := foldDrain_total ex results initState
  simp only [drain]
  simpa [initState, statTotal] using h

theorem drain_copied_card (ex : List (List Char)) (results : List (Option FileResult)) :
    (drain ex results).stats.copied = (results.filterMap (admHash ex)).toFinset.card := by
  obtain ⟨hmap, hnd, -⟩ := drain_inv ex results
  have hlen : (drain ex results).stats.copied = (drain ex results).seen.length := by
    have h := foldDrain_copied ex results initState
    simp only [drain]
    simpa [initState] using h
  have hset : (drain ex results).seen.toFinset =
      (results.filterMap (admHash ex)).toFinset := by
    apply Finset.ext
    intro a
    simp only [List.mem_toFinset]
    have h := foldDrain_seen ex results initState a
    simpa [drain, initState] using h
  rw [hlen, ← List.toFinset_card_of_nodup hnd, hset]

/-- C8 counterexample: swapping the completion order of a
severity-excluded duplicate and its kept twin moves one count between
the duplicate counter and the severity-excluded counter, so the two
orders produce different final statistics. -/
theorem order_statistics_counterexample :
    ([some infoRes, some highRes] : List (Option FileResult)).Perm
      [some highRes, some infoRes] ∧
    (drain ["info".toList] [some infoRes, some highRes]).stats ≠
      (drain ["info".toList] [some highRes, some infoRes]).stats := by
  constructor
  · exact List.Perm.swap _ _ _
  · decide

/-- C8 amended: under any permutation of the result-consumption order
the copied count and the error count are invariant, and so is the
combined total of the duplicate, severity-excluded and keyword-excluded
counts; the three individual skip counts can shift between each other,
as the counterexample shows. -/
theorem statistics_perm_invariant (ex : List (List Char))
    (results1 results2 : List (Option FileResult))
    (hperm : results1.Perm results2) :
    (drain ex results1).stats.copied = (drain ex results2).stats.copied ∧
    (drain ex results1).stats.error = (drain ex results2).stats.error ∧
    (drain ex results1).stats.duplicate + (drain ex results1).stats.severity_skipped +
        (drain ex results1).stats.keyword_skipped =
      (drain ex results2).stats.duplicate + (drain ex results2).stats.severity_skipped +
        (drain ex results2).stats.keyword_skipped := by
  have hcopied : (drain ex results1).stats.copied = (drain ex results2).stats.copied := by
    rw [drain_copied_card, drain_copied_card,
      List.toFinset_eq_of_perm _ _ (hperm.filterMap (admHash ex))]
  have herr : (drain ex results1).stats.error = (drain ex results2).stats.error := by
    rw [drain_error_count, drain_error_count, hperm.countP_eq]
  have ht1 := drain_total_eq_length ex results1
  have ht2 := drain_total_eq_length ex results2
  have hlen := hperm.length_eq
  refine ⟨hcopied, herr, ?_⟩
  simp only [statTotal] at ht1 ht2
  omega

theorem statistics_perm_invariant_witness :
    ([some infoRes, some highRes] : List (Option FileResult)).Perm
      [some highRes, some infoRes] ∧
    (drain ["info".toList] [some infoRes, some highRes]).stats.copied =
      (drain ["info".toList] [some highRes, some infoRes]).stats.copied :=
  ⟨List.Perm.swap _ _ _,
    (statistics_perm_invariant ["info".toList] _ _ (List.Perm.swap _ _ _)).1⟩

theorem isLineBreak_isSpace (c : Char) (h : isLineBreak c = true) :
    pyIsSpace c = true := by
  simp only [isLineBreak, Bool.or_eq_true, decide_eq_true_eq] at h
  simp only [pyIsSpace, Bool.or_eq_true, decide_eq_true_eq, Bool.and_eq_true]
  omega

theorem splitSegsAux_no_break (s : List Char)
    (hs : ∀ c ∈ s, isLineBreak c = false) :
    ∀ b, splitSegsAux b s = [s] := by
  induction s with
  | nil => intro b; rfl
  | cons c cs ih =>
    intro b
    have hc := hs c (List.mem_cons_self c cs)
    have hcs : ∀ x ∈ cs, isLineBreak x = false :=
      fun x hx => hs x (List.mem_cons_of_mem c hx)
    have hcn : c ≠ '\n' := by
      rintro rfl
      exact absurd hc (by decide)
    have hcr : c ≠ '\r' := by
      rintro rfl
      exact absurd hc (by decide)
    simp only [splitSegsAux]
    rw [if_neg (by simp [hcn]), if_neg hcr, if_neg (by simp [hc]), ih hcs false]

theorem splitlines_no_break (s : List Char)
    (hs : ∀ c ∈ s, isLineBreak c = false) (hne : s ≠ []) :
    splitlines s = [s] := by
  have h1 : splitSegs s = [s] := splitSegsAux_no_break s hs false
  cases s with
  | nil => exact absurd rfl hne
  | cons c cs =>
    unfold splitlines
    rw [h1]
    rfl

theorem removeWS_no_space (l : List Char) :
    ∀ c ∈ removeWS l, pyIsSpace c = false := by
  intro c hc
  have h := List.of_mem_filter hc
  simpa using h

theorem removeWS_eq_self (l : List Char) (h : ∀ c ∈ l, pyIsSpace c = false) :
    removeWS l = l := by
  apply List.filter_eq_self.mpr
  intro a ha
  simp [h a ha]

theorem dropWhile_eq_self_of_none (p : Char → Bool) (l : List Char)
    (h : ∀ c ∈ l, p c = false) : l.dropWhile p = l := by
  cases l with
  | nil => rfl
  | cons a t =>
    exact List.dropWhile_cons_of_neg (by simp [h a (List.mem_cons_self a t)])

theorem dropWhile_head_not (p : Char → Bool) (l : List Char) :
    ∀ c, (l.dropWhile p).head? = some c → p c = false := by
  induction l with
  | nil => intro c h; cases h
  | cons a l ih =>
    intro c h
    by_cases ha : p a
    · rw [List.dropWhile_cons_of_pos ha] at h
      exact ih c h
    · rw [List.dropWhile_cons_of_neg ha] at h
      simp only [List.head?_cons, Option.some.injEq] at h
      subst h
      simpa using ha

theorem removeWS_head (l : List Char) :
    (removeWS l).head? = (l.dropWhile pyIsSpace).head? := by
  induction l with
  | nil => rfl
  | cons c cs ih =>
    by_cases hc : pyIsSpace c
    · rw [List.dropWhile_cons_of_pos hc, ← ih]
      simp [removeWS, List.filter_cons, hc]
    · rw [List.dropWhile_cons_of_neg hc]
      simp [removeWS, List.filter_cons, hc]

theorem pyStrip_head (l : List Char) :
    (pyStrip l).head? = (l.dropWhile pyIsSpace).head? := by
  unfold pyStrip
  cases hd : l.dropWhile pyIsSpace with
  | nil => rfl
  | cons c r =>
    have hc : pyIsSpace c = false :=
      dropWhile_head_not pyIsSpace l c (by rw [hd]; rfl)
    rw [List.head?_reverse, List.reverse_cons, List.dropWhile_append]
    by_cases he : (r.reverse.dropWhile pyIsSpace).isEmpty
    · rw [if_pos he, List.dropWhile_cons_of_neg (by simp [hc])]
      rfl
    · rw [if_neg he, List.getLast?_concat]
      rfl

theorem flatten_head_ne (pieces : List (List Char)) (c0 : Char)
    (h : ∀ p ∈ pieces, p.head? ≠ some c0) :
    pieces.flatten.head? ≠ some c0 := by
  induction pieces with
  | nil => simp
  | cons p ps ih =>
    simp only [List.flatten_cons]
    cases p with
    | nil =>
      simpa using ih (fun q hq => h q (List.mem_cons_of_mem _ hq))
    | cons a t =>
      have ha := h (a :: t) (List.mem_cons_self _ _)
      simpa using ha

theorem kept_line_head (l : List Char) (h : isCommentLine l = false) :
    (removeWS l).head? ≠ some '#' := by
  rw [removeWS_head, ← pyStrip_head]
  intro hh
  have hcom : isCommentLine l = true := by
    unfold isCommentLine
    cases hps : pyStrip l with
    | nil => rw [hps] at hh; cases hh
    | cons a t =>
      rw [hps] at hh
      simp only [List.head?_cons, Option.some.injEq] at hh
      subst hh
      simp
  rw [h] at hcom
  cases hcom

theorem normalize_head_ne (b : List Char) :
    (normalizeSignature b).head? ≠ some '#' := by
  rw [normalizeSignature_eq_specCore]
  unfold specCore
  apply flatten_head_ne
  intro p hp
  obtain ⟨l, hl, rfl⟩ := List.mem_map.mp hp
  have hcl : isCommentLine l = false := by
    have h2 := (List.mem_filter.mp hl).2
    simpa using h2
  exact kept_line_head l hcl

theorem normalize_no_space (b : List Char) :
    ∀ c ∈ normalizeSignature b, pyIsSpace c = false :=
  fun c hc => removeWS_no_space _ c hc

theorem normalize_fixed (x : List Char) (hsp : ∀ c ∈ x, pyIsSpace c = false)
    (hhd : x.head? ≠ some '#') :
    normalizeSignature x = x := by
  cases x with
  | nil => rfl
  | cons a t =>
    have hbrk : ∀ c ∈ a :: t, isLineBreak c = false := by
      intro c hc
      cases hlb : isLineBreak c
      · rfl
      · exact absurd (isLineBreak_isSpace c hlb) (by simp [hsp c hc])
    have hsl : splitlines (a :: t) = [a :: t] :=
      splitlines_no_break _ hbrk (by simp)
    unfold normalizeSignature
    rw [hsl]
    have hstrip : pyStrip (a :: t) = a :: t := by
      unfold pyStrip
      rw [dropWhile_eq_self_of_none _ _ hsp,
        dropWhile_eq_self_of_none _ _ (fun c hc => hsp c (List.mem_reverse.mp hc)),
        List.reverse_reverse]
    have hnc : isCommentLine (a :: t) = false := by
      unfold isCommentLine
      rw [hstrip]
      have ha : a ≠ '#' := by
        rintro rfl
        exact hhd rfl
      simp [List.take, ha]
    rw [List.filter_cons_of_pos (by simp [hnc]), List.filter_nil]
    exact removeWS_eq_self _ hsp

/-- C9: normalization is idempotent; applying the comment-line removal
and whitespace deletion to an already-normalized string returns it
unchanged. -/
theorem normalize_idempotent (s : List Char) :
    normalizeSignature (normalizeSignature s) = normalizeSignature s :=
  normalize_fixed _ (normalize_no_space s) (normalize_head_ne s)

/-- A file whose signature block holds a mid-line comment character. -/
def cexText1 : List Char := "id: x".toList ++ '\n' :: "http: a#b".toList

/-- The same file with one extra line break before the comment
character, which turns the tail of the line into a comment line. -/
def cexText2 : List Char :=
  "id: x".toList ++ '\n' :: "http: a".toList ++ '\n' :: "#b".toList

def cexBlock1 : List Char := "http: a#b".toList

def cexBlock2 : List Char := "http: a".toList ++ '\n' :: "#b".toList

set_option maxRecDepth 20000 in
/-- C3 counterexample: the two signature blocks differ only in one
inserted line break (a whitespace-only difference: deleting all
whitespace from either block gives the same string), yet they
normalize to different strings and get different fingerprints, because
the inserted break turns the block tail into a comment line. -/
theorem comment_ws_invariance_counterexample :
    findSig cexText1 = some cexBlock1 ∧
    findSig cexText2 = some cexBlock2 ∧
    removeWS cexBlock1 = removeWS cexBlock2 ∧
    normalizeSignature cexBlock1 ≠ normalizeSignature cexBlock2 ∧
    md5Hex (utf8Encode (normalizeSignature cexBlock1)) ≠
      md5Hex (utf8Encode (normalizeSignature cexBlock2)) := by
  refine ⟨by decide, by decide, by decide, by decide, by decide⟩

/-- C3 amended: when the two signature blocks agree after comment-line
removal and whitespace deletion (in particular, when they differ only in
comments, indentation or line breaks that do not move characters into or
out of comment lines), they normalize to the identical string and the
Hasher produces identical fingerprints, so the two files fall into one
duplicate group. -/
theorem comment_ws_invariance (b1 b2 : List Char)
    (h : specCore b1 = specCore b2) :
    normalizeSignature b1 = normalizeSignature b2 ∧
    md5Hex (utf8Encode (normalizeSignature b1)) =
      md5Hex (utf8Encode (normalizeSignature b2)) := by
  have h1 : normalizeSignature b1 = normalizeSignature b2 := by
    rw [normalizeSignature_eq_specCore, normalizeSignature_eq_specCore, h]
  exact ⟨h1, by rw [h1]⟩

def wsBlock1 : List Char := "http:".toList ++ '\n' :: "  a".toList

def wsBlock2 : List Char :=
  "http:".toList ++ '\n' :: "#c".toList ++ '\n' :: "a".toList

theorem comment_ws_invariance_witness :
    specCore wsBlock1 = specCore wsBlock2 ∧
    normalizeSignature wsBlock1 = normalizeSignature wsBlock2 :=
  ⟨by decide, (comment_ws_invariance wsBlock1 wsBlock2 (by decide)).1⟩

theorem md5Bytes_length (msg : List Nat) : (md5Bytes msg).length = 16 := by
  unfold md5Bytes
  simp [wordLEBytes]

theorem hexDigit_mem (n : Nat) : hexDigit n ∈ hexChars := by
  unfold hexDigit
  have h16 : n % 16 < 16 := Nat.mod_lt _ (by norm_num)
  set m := n % 16 with hm
  interval_cases m <;> decide

theorem byteHex_flatten_length :
    ∀ bs : List Nat, ((bs.map byteHex).flatten).length = 2 * bs.length
  | [] => rfl
  | b :: bs => by
    have h := byteHex_flatten_length bs
    simp only [List.map_cons, List.flatten_cons, List.length_append, h,
      byteHex, List.length_cons, List.length_nil]
    omega

theorem md5Hex_length (msg : List Nat) : (md5Hex msg).length = 32 := by
  unfold md5Hex
  rw [byteHex_flatten_length, md5Bytes_length]

theorem md5Hex_mem (msg : List Nat) : ∀ c ∈ md5Hex msg, c ∈ hexChars := by
  intro c hc
  unfold md5Hex at hc
  obtain ⟨l, hl, hcl⟩ := List.mem_flatten.mp hc
  obtain ⟨b, -, rfl⟩ := List.mem_map.mp hl
  simp only [byteHex, List.mem_cons, List.not_mem_nil, or_false] at hcl
  rcases hcl with rfl | rfl
  · exact hexDigit_mem _
  · exact hexDigit_mem _

/-- C10: whenever process_file succeeds, the record it returns carries a
populated fingerprint, a 32-character string over the lowercase
hexadecimal alphabet, because the no-signature case returns the skip
signal before any record is built. -/
theorem fingerprint_always_populated (path content : List Char)
    (res : FileResult) (h : process_file path content = some res) :
    ∃ d, res.hash = some d ∧ d.length = 32 ∧ ∀ c ∈ d, c ∈ hexChars := by
  unfold process_file at h
  cases hf : findSig content with
  | none =>
    rw [hf] at h
    simp at h
  | some block =>
    rw [hf] at h
    simp only [Option.some.injEq] at h
    subst h
    exact ⟨md5Hex (utf8Encode (normalizeSignature block)), rfl,
      md5Hex_length _, md5Hex_mem _⟩

def egContent : List Char := "http:".toList ++ '\n' :: "GET /x".toList

set_option maxRecDepth 20000 in
theorem fingerprint_always_populated_witness :
    ∃ res, process_file ("a.yaml".toList) egContent = some res ∧
      ∃ d, res.hash = some d ∧ d.length = 32 ∧ ∀ c ∈ d, c ∈ hexChars := by
  cases hp : process_file ("a.yaml".toList) egContent with
  | none => exact absurd hp (by decide)
  | some r =>
    exact ⟨r, rfl, fingerprint_always_populated ("a.yaml".toList) egContent r hp⟩

end NucleiPoC
